import Mathlib

/-!
# Solsøker: a verification development of the weather-search app

A shallow embedding, over exact rationals, of the core numerical logic of
`src/App.jsx` (the Solsøker/Stormsøker React app):

* the constrained barycentric weight selector
  (`triArea`, `barycentric`, `projectToLine`, `constrainToTriangle`, `handleDrag`);
* the polar grid generator inlined in `processLocation` (rings `[1,8,16,24,32]`);
* the 24-hour-average scoring of a forecast series;
* the batch search orchestration of `processLocation`, with the weather and
  geocoding services modelled as injected ports returning `Except`.

Modelling conventions:

* JavaScript numbers are modelled as `ℚ` (exact arithmetic, no floating point);
  division by zero is ℚ-division (`x / 0 = 0`), which is only ever exercised on
  paths where the code's own divisor is zero as well.
* `Math.sin`, `Math.cos` and `Math.PI` are transcendental, so they are taken as
  uninterpreted parameters `jsin jscos : ℚ → ℚ` and `jpi : ℚ`; no theorem below
  depends on their values.
* `Math.sqrt` only occurs in `constrainToTriangle`, where the code compares
  `sqrt d` against a running minimum.  Since `Real.sqrt` is strictly monotone on
  nonnegatives, comparing the squared distances selects the same edge; the
  embedding therefore compares squared distances directly.
* A rejected promise / thrown exception is modelled as `Except.error`; the
  distinct error exits of `processLocation` are the constructors of `AppError`.
-/

namespace Solsoker

/-! ## Geometry module (App.jsx lines 345-458) -/

/-- A 2D pixel point, the `{x, y}` objects of the triangle selector. -/
@[ext]
structure Pt where
  x : ℚ
  y : ℚ
deriving DecidableEq

/-- Signed triangle area via the 2D cross product (`triArea`, line 372). -/
def triArea (p q r : Pt) : ℚ :=
  ((q.x - p.x) * (r.y - p.y) - (q.y - p.y) * (r.x - p.x)) / 2

/-- The three raw barycentric weights returned by `barycentric` (line 378). -/
structure Bary where
  wA : ℚ
  wB : ℚ
  wC : ℚ
deriving DecidableEq

/-- Barycentric coordinates by signed-area ratios (`barycentric`, lines 378-384). -/
def barycentric (vA vB vC p : Pt) : Bary :=
  let areaTotal := triArea vA vB vC
  { wA := triArea p vB vC / areaTotal
    wB := triArea vA p vC / areaTotal
    wC := triArea vA vB p / areaTotal }

/-- Orthogonal projection of a point onto a closed segment
(`projectToLine`, lines 440-458): the line parameter is clamped to `[0, 1]`
by the two guard branches. -/
def projectToLine (point lineStart lineEnd : Pt) : Pt :=
  let A := point.x - lineStart.x
  let B := point.y - lineStart.y
  let C := lineEnd.x - lineStart.x
  let D := lineEnd.y - lineStart.y
  let dot := A * C + B * D
  let lenSq := C * C + D * D
  let param := if lenSq ≠ 0 then dot / lenSq else -1
  if param < 0 then lineStart
  else if param > 1 then lineEnd
  else { x := lineStart.x + param * C, y := lineStart.y + param * D }

/-- Squared Euclidean distance.  Line 427 computes
`Math.sqrt((p.x-q.x)**2 + (p.y-q.y)**2)` and only ever compares such values
with `<`; as `sqrt` is strictly monotone on nonnegatives, the embedding keeps
the squares. -/
def distSq (p q : Pt) : ℚ :=
  (p.x - q.x) ^ 2 + (p.y - q.y) ^ 2

/-- The `edges.forEach` minimum-distance fold of `constrainToTriangle`
(lines 422-433).  `minDistance` starts at `Infinity`, modelled by `none`
(the first comparison `distance < Infinity` always succeeds); the strict `<`
keeps the earlier edge on ties. -/
def closestEdgePoint (p : Pt) (edges : List (Pt × Pt)) : Pt :=
  (edges.foldl
    (fun acc edge =>
      let projected := projectToLine p edge.1 edge.2
      let distance := distSq p projected
      match acc.1 with
      | none => (some distance, projected)
      | some minDistance =>
          if distance < minDistance then (some distance, projected) else acc)
    ((none : Option ℚ), p)).2

/-- `constrainToTriangle` (lines 407-436): inside points are returned
unchanged, outside points are replaced by the nearest of the three edge
projections, edges tried in the order `(vA,vB), (vB,vC), (vA,vC)`. -/
def constrainToTriangle (vA vB vC p : Pt) : Pt :=
  let b := barycentric vA vB vC p
  if 0 ≤ b.wA ∧ 0 ≤ b.wB ∧ 0 ≤ b.wC then p
  else closestEdgePoint p [(vA, vB), (vB, vC), (vA, vC)]

/-- The triple of weight states `solWeight, tempWeight, windWeight`. -/
structure Weights where
  sol : ℚ
  temp : ℚ
  wind : ℚ
deriving DecidableEq

/-- `handleDrag` (lines 386-404), restricted to its state effect: the new
selector position and the new weight triple.  When the raw barycentric sum is
not `> 0` the `setSolWeight/...` calls are skipped, so the prior weights
survive. -/
def handleDrag (vA vB vC : Pt) (prior : Weights) (x y : ℚ) : Pt × Weights :=
  let constrainedPoint := constrainToTriangle vA vB vC { x := x, y := y }
  let b := barycentric vA vB vC constrainedPoint
  let total := b.wA + b.wB + b.wC
  if 0 < total then
    (constrainedPoint,
      { sol := b.wA / total, temp := b.wB / total, wind := b.wC / total })
  else (constrainedPoint, prior)

/-- The convex parameterization of the closed segment from `s` to `e`: the
"edges treated as closed segments" of the specification. -/
def segPoint (s e : Pt) (t : ℚ) : Pt :=
  { x := s.x + t * (e.x - s.x), y := s.y + t * (e.y - s.y) }

/-- Membership of a point in a closed edge segment. -/
def OnSeg (s e q : Pt) : Prop :=
  ∃ t : ℚ, 0 ≤ t ∧ t ≤ 1 ∧ q = segPoint s e t

/-- The clamped line parameter computed by `projectToLine`: `dot/lenSq`
clamped into `[0, 1]` by the two guard branches (with the degenerate-segment
sentinel `-1` of line 448 clamping to `0`, i.e. `lineStart`). -/
def clampNum (dot lenSq : ℚ) : ℚ :=
  let param := if lenSq ≠ 0 then dot / lenSq else -1
  if param < 0 then 0 else if param > 1 then 1 else param

/-- `clampNum` applied to the dot products `projectToLine` forms. -/
def clampedParam (point lineStart lineEnd : Pt) : ℚ :=
  clampNum
    ((point.x - lineStart.x) * (lineEnd.x - lineStart.x)
      + (point.y - lineStart.y) * (lineEnd.y - lineStart.y))
    ((lineEnd.x - lineStart.x) * (lineEnd.x - lineStart.x)
      + (lineEnd.y - lineStart.y) * (lineEnd.y - lineStart.y))

/-! ## Grid generator (App.jsx lines 528-559) -/

/-- One generated grid point (`samples.push({lat, lon, ring, index})`, line 557). -/
structure Sample where
  lat : ℚ
  lon : ℚ
  ring : ℕ
  idx : ℕ
deriving DecidableEq

/-- `pointsPerRing = [1, 8, 16, 24, 32]` (line 533). -/
def pointsPerRing : List ℕ := [1, 8, 16, 24, 32]

/-- `numRings = 5` (line 532). -/
def numRings : ℕ := 5

/-- The inlined grid generation loop (lines 540-559).  `jsin`, `jscos`, `jpi`
stand for `Math.sin`, `Math.cos`, `Math.PI`. -/
def gridSamples (jsin jscos : ℚ → ℚ) (jpi : ℚ)
    (centerLat centerLng maxRadiusKm : ℚ) : List Sample :=
  (List.range numRings).flatMap fun (ring : ℕ) =>
    let ringRadius := ((ring : ℚ) / ((numRings : ℚ) - 1)) * maxRadiusKm
    let pointsInRing := pointsPerRing.getD ring 0
    (List.range pointsInRing).map fun (i : ℕ) =>
      let angle := ((i : ℚ) / (pointsInRing : ℚ)) * 2 * jpi
      let latRadius := ringRadius / (111.32 : ℚ)
      let lonRadius := ringRadius / ((111.32 : ℚ) * jscos (centerLat * jpi / 180))
      { lat := centerLat + latRadius * jsin angle
        lon := centerLng + lonRadius * jscos angle
        ring := ring
        idx := i }

/-! ## Scoring (App.jsx lines 579-623) -/

/-- `entry.data.instant.details` of one forecast time step. -/
structure InstantDetails where
  cloud_area_fraction : ℚ
  air_temperature : ℚ
  wind_speed : ℚ
deriving DecidableEq

/-- The parts of a Met.no response the code reads: the time series (each entry
either carries `instant.details` or not, line 587), and the first entry's
`next_1_hours?.summary?.symbol_code || ''` collapsed to a plain string. -/
structure ForecastData where
  timeseries : List (Option InstantDetails)
  symbol0 : String
deriving DecidableEq

/-- The `forecast24h.forEach` accumulation (lines 583-594): running sums of
`1 - cloud_area_fraction/100`, `air_temperature`, `wind_speed`, and the count
of valid entries. -/
def aggregate24 (forecast24h : List (Option InstantDetails)) : ℚ × ℚ × ℚ × ℕ :=
  forecast24h.foldl
    (fun acc e =>
      match e with
      | some details =>
          (acc.1 + (1 - details.cloud_area_fraction / 100),
           acc.2.1 + details.air_temperature,
           acc.2.2.1 + details.wind_speed,
           acc.2.2.2 + 1)
      | none => acc)
    (0, 0, 0, 0)

/-- `tempScore = 1 - Math.min(Math.abs(avgTemp - 25)/20, 1)` (line 607). -/
def tempSubScore (avgTemp : ℚ) : ℚ :=
  1 - min (|avgTemp - 25| / 20) 1

/-- The two wind profiles of line 608-610: storm-seeking when `darkMode`,
calm-seeking otherwise. -/
def windSubScore (darkMode : Bool) (avgWind : ℚ) : ℚ :=
  if darkMode then 1 - min (|avgWind - 17| / 17) 1
  else 1 - min (avgWind / 15) 1

/-- One scored candidate, the object returned at lines 614-623. -/
structure WeatherSpot where
  lat : ℚ
  lon : ℚ
  temp : ℚ
  cloud : ℚ
  wind : ℚ
  gust : Option ℚ
  symbolCode : String
  score : ℚ
deriving DecidableEq

/-- The body of the per-point async closure (lines 579-623) after a successful
fetch: slice the first 24 entries, average, score.  `none` models the
`throw new Error('No valid forecast data')` at line 597, which rejects that
candidate's promise. -/
def evalSpot (wSol wTemp wWind : ℚ) (darkMode : Bool) (p : Sample)
    (data : ForecastData) : Option WeatherSpot :=
  let forecast24h := data.timeseries.take 24
  let agg := aggregate24 forecast24h
  let validEntries := agg.2.2.2
  if validEntries = 0 then none
  else
    let avgSol := agg.1 / (validEntries : ℚ)
    let avgTemp := agg.2.1 / (validEntries : ℚ)
    let avgWind := agg.2.2.1 / (validEntries : ℚ)
    let sol := avgSol
    let score := wSol * sol + wTemp * tempSubScore avgTemp
      + wWind * windSubScore darkMode avgWind
    some
      { lat := p.lat
        lon := p.lon
        temp := avgTemp
        cloud := (1 - avgSol) * 100
        wind := avgWind
        gust := none
        symbolCode := data.symbol0
        score := score }

/-! ## Search orchestrator (App.jsx lines 501-699)

The two external services are injected ports keyed by coordinates:

* `met lat lon` models `fetchJsonWithTimeout('/api/met?lat=..&lon=..')`: either
  the parsed forecast payload or a rejected promise (network error, timeout,
  malformed data);
* `geo lat lon` models a reverse-geocode call: on success it yields
  `addr.city || addr.town || addr.village || addr.hamlet || display_name`
  collapsed to an `Option String` (`none` when every field is falsy), on
  failure a rejection.

The UI state setters (`setSearchProgress`, `setUserLocation`,
`setTopWeatherSpots`, ...) and the inter-batch `sleep(50)` have no bearing on
the returned data and are not modelled; the initial reverse geocode of the
user position (lines 512-521) only feeds the `userLocation` display state and
is likewise omitted.  Batches (`Promise.allSettled` over slices of 10,
lines 564-644) settle in generation order and only append to
`allWeatherSpots` / update `bestPoint` after each fan-in, so the whole scan is
modelled as one in-order fold over the generated samples. -/

/-- A failed weather fetch (network / timeout / parse), collapsed to one value. -/
inductive FetchError where
  | fetchError
deriving DecidableEq

/-- A failed reverse-geocode lookup, collapsed to one value. -/
inductive LookupError where
  | lookupError
deriving DecidableEq

/-- Weather provider port: `met lat lon`. -/
abbrev MetProvider := ℚ → ℚ → Except FetchError ForecastData

/-- Geocoding provider port: `geo lat lon`. -/
abbrev GeoProvider := ℚ → ℚ → Except LookupError (Option String)

/-- The distinct ways `processLocation` can fail.

* `invalidInput`: the early return at lines 504-508 (all weights zero).
* `typeError`: the JavaScript `TypeError` thrown by dereferencing the `null`
  `bestPoint` at lines 675/682 when no candidate succeeded.
* `fetchErr`: the uncaught rejection of the final full-forecast fetch
  (lines 686-690, no surrounding try/catch).
* `noDataError`: modelled from the spec's error taxonomy (`NoDataError`,
  spec §7); the code never constructs it — it is present only so theorems can
  state that the code does not fail with it. -/
inductive AppError where
  | invalidInput
  | typeError
  | fetchErr
  | noDataError
deriving DecidableEq

/-- One iteration of the batch loop (lines 564-644) for one candidate: a
failed fetch or a `'No valid forecast data'` throw skips the candidate
(`Promise.allSettled` branch `rejected`, line 637); a success is appended to
`allWeatherSpots` and the running best is updated by strict `>` (line 633), so
ties keep the earlier-found point.  `bestScore` starts at `-Infinity`,
modelled by the `none` best (the first successful spot always wins the
comparison). -/
def scanStep (wSol wTemp wWind : ℚ) (darkMode : Bool) (met : MetProvider)
    (acc : List WeatherSpot × Option WeatherSpot) (p : Sample) :
    List WeatherSpot × Option WeatherSpot :=
  match met p.lat p.lon with
  | .error _ => acc
  | .ok data =>
      match evalSpot wSol wTemp wWind darkMode p data with
      | none => acc
      | some weatherSpot =>
          let pool := acc.1 ++ [weatherSpot]
          match acc.2 with
          | none => (pool, some weatherSpot)
          | some b =>
              if b.score < weatherSpot.score then (pool, some weatherSpot)
              else (pool, some b)

/-- The whole batch phase as an in-order fold of `scanStep`: batches settle in
generation order and the pool/best are only touched after each fan-in, so the
batching is observationally a single left fold. -/
def scanSamples (wSol wTemp wWind : ℚ) (darkMode : Bool) (met : MetProvider)
    (samples : List Sample) : List WeatherSpot × Option WeatherSpot :=
  samples.foldl (scanStep wSol wTemp wWind darkMode met) ([], none)

/-- Invariant of the scan fold: when no candidate has succeeded the pool is
empty, and the running best is always the first pool element attaining the
maximal score (everything before it scores strictly lower, nothing scores
higher). -/
def ScanInv (acc : List WeatherSpot × Option WeatherSpot) : Prop :=
  (acc.2 = none → acc.1 = [])
  ∧ ∀ b, acc.2 = some b →
      ∃ pre post, acc.1 = pre ++ b :: post
        ∧ (∀ s ∈ pre, s.score < b.score)
        ∧ ∀ s ∈ acc.1, s.score ≤ b.score

/-- `allWeatherSpots.sort((a, b) => b.score - a.score)` (lines 647-648): a
stable descending sort by score.  `Array.prototype.sort` is stable, and with
this comparator it places `a` before `b` exactly when `b.score ≤ a.score`;
`List.mergeSort` with that relation is the same stable sort. -/
def sortSpots (allWeatherSpots : List WeatherSpot) : List WeatherSpot :=
  allWeatherSpots.mergeSort fun a b => decide (b.score ≤ a.score)

/-- `` `Spot ${index + 1}` ``. -/
def spotLabel (rank : ℕ) : String :=
  "Spot " ++ toString rank

/-- `Number.prototype.toFixed(5)` in exact arithmetic: round `|q| * 10^5`
half-up to an integer and print sign, integer part, and 5 fixed decimals. -/
def toFixed5 (q : ℚ) : String :=
  let sign := if q < 0 then "-" else ""
  let n : ℕ := (⌊|q| * 100000 + 1 / 2⌋).toNat
  let ip := n / 100000
  let fp := n % 100000
  let fpDigits := toString fp
  sign ++ toString ip ++ "." ++
    String.mk (List.replicate (5 - fpDigits.length) '0') ++ fpDigits

/-- `` `${lat.toFixed(5)},${lon.toFixed(5)}` `` (lines 520 and 682). -/
def coordLabel (lat lon : ℚ) : String :=
  toFixed5 lat ++ "," ++ toFixed5 lon

/-- A ranked top-K entry (`{...spot, name, rank}`, lines 659/661). -/
structure NamedSpot where
  spot : WeatherSpot
  name : String
  rank : ℕ
deriving DecidableEq

/-- The `sortedSpots.map(async (spot, index) => ...)` naming pass
(lines 652-664): on a successful lookup the name falls back to
`` `Spot ${index + 1}` `` only when every address field is falsy; on a failed
lookup the catch at line 660 substitutes the same label. -/
def nameTopSpots (geo : GeoProvider) : ℕ → List WeatherSpot → List NamedSpot
  | _, [] => []
  | index, spot :: rest =>
      (match geo spot.lat spot.lon with
        | .ok addrName =>
            { spot := spot, name := addrName.getD (spotLabel (index + 1)),
              rank := index + 1 }
        | .error _ =>
            { spot := spot, name := spotLabel (index + 1), rank := index + 1 })
      :: nameTopSpots geo (index + 1) rest

/-- The best-point naming (lines 671-683): a successful lookup yields the
address fields as-is (possibly `none` when all are falsy — no fallback on this
path), a failed lookup is caught and replaced by the coordinate label. -/
def bestPlaceName (geo : GeoProvider) (bestPoint : WeatherSpot) : Option String :=
  match geo bestPoint.lat bestPoint.lon with
  | .ok addrName => addrName
  | .error _ => some (coordLabel bestPoint.lat bestPoint.lon)

/-- The final `setBest({...bestPoint, name, forecast})` payload (line 693). -/
structure BestResult where
  spot : WeatherSpot
  name : Option String
  forecast : List (Option InstantDetails)
deriving DecidableEq

/-- What one completed search hands back to the UI: the best point with its
full forecast, and the named top-3 list. -/
structure SearchResult where
  best : BestResult
  topK : List NamedSpot
deriving DecidableEq

deriving instance DecidableEq for Except

/-- Outcome of one `processLocation` invocation: the settled value of the
async function, plus how many weather-provider requests were issued. -/
structure SearchOutcome where
  result : Except AppError SearchResult
  metCalls : ℕ
deriving DecidableEq

/-- `processLocation` (lines 501-699).  Control flow:

1. validate `solWeight + tempWeight + windWeight`, early-return on zero
   (lines 503-508) — no weather fetch has been issued at that point;
2. normalize the weights (lines 509-511);
3. generate the grid and scan it in batches (lines 528-644), one weather
   fetch per sample;
4. sort, take 3, name them (lines 646-664);
5. name the best point — when `bestPoint` is `null` (zero successes) the
   template literal at line 675 throws a `TypeError`, the catch at line 681
   rethrows via `bestPoint.lat.toFixed(5)`, and the async function rejects;
6. fetch the full forecast of the best point (lines 686-690, uncaught on
   failure) and assemble the result. -/
def processLocation (solWeight tempWeight windWeight : ℚ) (darkMode : Bool)
    (searchRadius latitude longitude : ℚ) (jsin jscos : ℚ → ℚ) (jpi : ℚ)
    (met : MetProvider) (geo : GeoProvider) : SearchOutcome :=
  let totalWLocal := solWeight + tempWeight + windWeight
  if totalWLocal = 0 then
    { result := .error .invalidInput, metCalls := 0 }
  else
    let wSol := solWeight / totalWLocal
    let wTemp := tempWeight / totalWLocal
    let wWind := windWeight / totalWLocal
    let samples := gridSamples jsin jscos jpi latitude longitude searchRadius
    let scan := scanSamples wSol wTemp wWind darkMode met samples
    let allWeatherSpots := scan.1
    let sortedSpots := (sortSpots allWeatherSpots).take 3
    let topSpotsWithNames := nameTopSpots geo 0 sortedSpots
    match scan.2 with
    | none => { result := .error .typeError, metCalls := samples.length }
    | some bestPoint =>
        let placeName := bestPlaceName geo bestPoint
        match met bestPoint.lat bestPoint.lon with
        | .error _ =>
            { result := .error .fetchErr, metCalls := samples.length + 1 }
        | .ok fData =>
            { result := .ok
                { best :=
                    { spot := bestPoint, name := placeName,
                      forecast := fData.timeseries }
                  topK := topSpotsWithNames }
              metCalls := samples.length + 1 }

/-! ## Supporting lemmas: temporal aggregation -/

/-- The arithmetic mean of a field `f` over a list of forecast instants: the
spec's "average first, then score" side of the comparison. -/
def meanOf (f : InstantDetails → ℚ) (ds : List InstantDetails) : ℚ :=
  (ds.map f).sum / (ds.length : ℚ)

lemma aggregate24_foldl (l : List (Option InstantDetails)) :
    ∀ acc : ℚ × ℚ × ℚ × ℕ,
      l.foldl
        (fun acc e =>
          match e with
          | some details =>
              (acc.1 + (1 - details.cloud_area_fraction / 100),
               acc.2.1 + details.air_temperature,
               acc.2.2.1 + details.wind_speed,
               acc.2.2.2 + 1)
          | none => acc) acc
      = (acc.1 + ((l.filterMap id).map fun d => 1 - d.cloud_area_fraction / 100).sum,
         acc.2.1 + ((l.filterMap id).map fun d => d.air_temperature).sum,
         acc.2.2.1 + ((l.filterMap id).map fun d => d.wind_speed).sum,
         acc.2.2.2 + (l.filterMap id).length) := by
  induction l with
  | nil => intro acc; simp
  | cons e t ih =>
      intro acc
      cases e with
      | none => simpa using ih acc
      | some d =>
          simp only [List.foldl_cons, List.filterMap_cons_some, id_eq, List.map_cons,
            List.sum_cons, List.length_cons, ih]
          refine Prod.ext ?_ (Prod.ext ?_ (Prod.ext ?_ ?_)) <;> simp <;> ring

lemma aggregate24_eq (l : List (Option InstantDetails)) :
    aggregate24 l
      = (((l.filterMap id).map fun d => 1 - d.cloud_area_fraction / 100).sum,
         ((l.filterMap id).map fun d => d.air_temperature).sum,
         ((l.filterMap id).map fun d => d.wind_speed).sum,
         (l.filterMap id).length) := by
  simpa using aggregate24_foldl l (0, 0, 0, 0)

lemma sum_one_sub_cloud (ds : List InstantDetails) :
    (ds.map fun d => 1 - d.cloud_area_fraction / 100).sum
      = (ds.length : ℚ) - (ds.map fun d => d.cloud_area_fraction).sum / 100 := by
  induction ds with
  | nil => simp
  | cons d t ih =>
      simp only [List.map_cons, List.sum_cons, List.length_cons, ih]
      push_cast
      ring

lemma length_filterMap_of_all_isSome (l : List (Option InstantDetails))
    (h : ∀ e ∈ l, e.isSome = true) : (l.filterMap id).length = l.length := by
  induction l with
  | nil => simp
  | cons e t ih =>
      cases e with
      | none => exact absurd (h none (by simp)) (by simp)
      | some d =>
          have ht : ∀ x ∈ t, x.isSome = true := fun x hx => h x (List.mem_cons_of_mem _ hx)
          show (d :: List.filterMap id t).length = t.length + 1
          simp [ih ht]

/-! ## Claim theorems: scoring -/

/-- C10: the sun component the code computes — the arithmetic mean over the
valid entries of the per-instant sub-score `1 - cloudFraction/100` — equals
the sun sub-score applied to the mean cloud fraction, by linearity; the code's
per-instant aggregation order coincides with average-then-score for the sun
factor. -/
theorem sun_component_average_commutes (forecast24h : List (Option InstantDetails))
    (h : (forecast24h.filterMap id).length ≠ 0) :
    (aggregate24 forecast24h).1 / ((aggregate24 forecast24h).2.2.2 : ℚ)
      = 1 - meanOf (fun d => d.cloud_area_fraction) (forecast24h.filterMap id) / 100 := by
  rw [aggregate24_eq, meanOf]
  set ds := forecast24h.filterMap id with hds
  have hn : ((ds.length : ℚ)) ≠ 0 := Nat.cast_ne_zero.mpr h
  rw [sum_one_sub_cloud, sub_div, div_self hn, div_div, div_div, mul_comm]

/-- C10 witness: a concrete two-entry series. -/
theorem sun_component_average_commutes_witness :
    (aggregate24 [some ⟨40, 20, 5⟩, none, some ⟨60, 22, 3⟩]).1
        / ((aggregate24 [some ⟨40, 20, 5⟩, none, some ⟨60, 22, 3⟩]).2.2.2 : ℚ)
      = 1 - meanOf (fun d => d.cloud_area_fraction)
            ([some ⟨40, 20, 5⟩, none, some ⟨60, 22, 3⟩].filterMap id) / 100 :=
  sun_component_average_commutes [some ⟨40, 20, 5⟩, none, some ⟨60, 22, 3⟩] (by decide)

/-- C3: for a successfully evaluated candidate whose 24-step window is fully
valid, the final score is `wSun*sunScore + wTemp*tempScore + wWind*windScore`
with every sub-score applied to the arithmetic mean of the raw quantity over
the window (average first, then score). -/
theorem candidate_score_is_average_then_score
    (wSol wTemp wWind : ℚ) (darkMode : Bool) (p : Sample) (data : ForecastData)
    (spot : WeatherSpot)
    (hvalid : ∀ e ∈ data.timeseries.take 24, e.isSome = true)
    (hfull : (data.timeseries.take 24).length = 24)
    (heval : evalSpot wSol wTemp wWind darkMode p data = some spot) :
    spot.score
      = wSol * (1 - meanOf (fun d => d.cloud_area_fraction)
            ((data.timeseries.take 24).filterMap id) / 100)
        + wTemp * tempSubScore (meanOf (fun d => d.air_temperature)
            ((data.timeseries.take 24).filterMap id))
        + wWind * windSubScore darkMode (meanOf (fun d => d.wind_speed)
            ((data.timeseries.take 24).filterMap id)) := by
  have hlen : ((data.timeseries.take 24).filterMap id).length = 24 := by
    rw [length_filterMap_of_all_isSome _ hvalid, hfull]
  simp only [evalSpot, aggregate24_eq, hlen] at heval
  rw [if_neg (by decide : ¬ (24 : ℕ) = 0)] at heval
  injection heval with h
  subst h
  dsimp only
  rw [sum_one_sub_cloud, hlen]
  simp only [meanOf, hlen]
  push_cast
  ring

/-- C3 witness: one fully valid 24-entry series (all entries equal), weights
`(1/2, 1/4, 1/4)`. -/
theorem candidate_score_is_average_then_score_witness :
    ((⟨60, 10, 20, 40, 5, none, "", 157/240⟩ : WeatherSpot)).score
      = 1/2 * (1 - meanOf (fun d => d.cloud_area_fraction)
            (((List.replicate 24 (some (⟨40, 20, 5⟩ : InstantDetails))).take 24).filterMap id) / 100)
        + 1/4 * tempSubScore (meanOf (fun d => d.air_temperature)
            (((List.replicate 24 (some (⟨40, 20, 5⟩ : InstantDetails))).take 24).filterMap id))
        + 1/4 * windSubScore false (meanOf (fun d => d.wind_speed)
            (((List.replicate 24 (some (⟨40, 20, 5⟩ : InstantDetails))).take 24).filterMap id)) :=
  candidate_score_is_average_then_score (1/2) (1/4) (1/4) false ⟨60, 10, 0, 0⟩
    ⟨List.replicate 24 (some ⟨40, 20, 5⟩), ""⟩ ⟨60, 10, 20, 40, 5, none, "", 157/240⟩
    (by intro e he; simp at he; simp [he])
    (by simp)
    (by
      have h2 : List.filterMap id (List.replicate 24 (some (⟨40, 20, 5⟩ : InstantDetails)))
          = List.replicate 24 ⟨40, 20, 5⟩ := by simp
      simp only [evalSpot, List.take_replicate, aggregate24_eq]
      norm_num [h2, tempSubScore, windSubScore, min_def])

/-- C8 counterexample: between 45 °C and 69 °C the deviation `|temp - 25|`
increases (from 20 to 44, still below the claimed 45 °C floor onset) yet the
temperature sub-score does not strictly decrease — both are already 0. -/
theorem tempScore_strict_decrease_counterexample :
    (0 : ℚ) < |(45 : ℚ) - 25| ∧ |(45 : ℚ) - 25| < |(69 : ℚ) - 25|
      ∧ |(69 : ℚ) - 25| < 45
      ∧ tempSubScore 45 = tempSubScore 69 := by
  refine ⟨by norm_num, by norm_num, by norm_num, ?_⟩
  simp only [tempSubScore]
  norm_num [min_def]

/-- C8 amended: `tempScore` strictly decreases as the deviation `|temp - 25|`
increases while the deviation stays within the linear range `[0, 20]`; it is
nonincreasing in the deviation everywhere; and it floors at 0 for every
deviation ≥ 20 °C (hence at all temperatures ≥ 45 °C, and a fortiori at
deviations ≥ 45 °C). -/
theorem tempScore_monotone_and_floor (t1 t2 : ℚ) :
    (|t1 - 25| < |t2 - 25| → |t2 - 25| ≤ 20 → tempSubScore t2 < tempSubScore t1)
    ∧ (|t1 - 25| ≤ |t2 - 25| → tempSubScore t2 ≤ tempSubScore t1)
    ∧ (20 ≤ |t2 - 25| → tempSubScore t2 = 0) := by
  have h1 : (0 : ℚ) ≤ |t1 - 25| := abs_nonneg _
  have h2 : (0 : ℚ) ≤ |t2 - 25| := abs_nonneg _
  set d1 := |t1 - 25| with hd1
  set d2 := |t2 - 25| with hd2
  have floor2 : 20 ≤ d2 → tempSubScore t2 = 0 := by
    intro h
    have : min (d2 / 20) 1 = 1 := min_eq_right (by linarith)
    simp only [tempSubScore, ← hd2, this]
    ring
  refine ⟨?_, ?_, floor2⟩
  · intro hlt hle
    have e2 : min (d2 / 20) 1 = d2 / 20 := min_eq_left (by linarith)
    have e1 : min (d1 / 20) 1 = d1 / 20 := min_eq_left (by linarith)
    simp only [tempSubScore, ← hd1, ← hd2, e1, e2]
    linarith
  · intro hle
    rcases le_or_lt d2 20 with h | h
    · have e2 : min (d2 / 20) 1 = d2 / 20 := min_eq_left (by linarith)
      have e1 : min (d1 / 20) 1 = d1 / 20 := min_eq_left (by linarith)
      simp only [tempSubScore, ← hd1, ← hd2, e1, e2]
      linarith
    · rw [floor2 h.le]
      have : min (d1 / 20) 1 ≤ 1 := min_le_right _ _
      simp only [tempSubScore, ← hd1]
      linarith

/-- C8 amended witness: strict decrease from 25 °C to 30 °C, and the floor at
69 °C. -/
theorem tempScore_monotone_and_floor_witness :
    tempSubScore 30 < tempSubScore 25 ∧ tempSubScore 69 = 0 :=
  ⟨(tempScore_monotone_and_floor 25 30).1 (by norm_num) (by norm_num),
   (tempScore_monotone_and_floor 25 69).2.2 (by norm_num)⟩

/-! ## Supporting lemmas: the polar grid -/

lemma gridSamples_length (jsin jscos : ℚ → ℚ) (jpi cLat cLng r : ℚ) :
    (gridSamples jsin jscos jpi cLat cLng r).length = 81 := by
  rw [gridSamples, show List.range numRings = [0, 1, 2, 3, 4] from rfl]
  simp [pointsPerRing]

lemma gridSamples_mem {jsin jscos : ℚ → ℚ} {jpi cLat cLng r : ℚ} {s : Sample} :
    s ∈ gridSamples jsin jscos jpi cLat cLng r ↔
      ∃ ring : ℕ, ring < numRings ∧ ∃ i : ℕ, i < pointsPerRing.getD ring 0 ∧
        s = { lat := cLat + ((ring : ℚ) / ((numRings : ℚ) - 1)) * r / (111.32 : ℚ)
                * jsin (((i : ℚ) / (pointsPerRing.getD ring 0 : ℚ)) * 2 * jpi)
              lon := cLng + ((ring : ℚ) / ((numRings : ℚ) - 1)) * r
                / ((111.32 : ℚ) * jscos (cLat * jpi / 180))
                * jscos (((i : ℚ) / (pointsPerRing.getD ring 0 : ℚ)) * 2 * jpi)
              ring := ring
              idx := i } := by
  simp only [gridSamples, List.mem_flatMap, List.mem_map, List.mem_range]
  constructor
  · rintro ⟨ring, hring, i, hi, rfl⟩
    exact ⟨ring, hring, i, hi, rfl⟩
  · rintro ⟨ring, hring, i, hi, rfl⟩
    exact ⟨ring, hring, i, hi, rfl⟩

lemma filter_ring0_block (c : ℕ) (latF lonF : ℕ → ℚ) (l : List ℕ) :
    ((l.map fun i => Sample.mk (latF i) (lonF i) c i).filter fun q => q.ring == 0)
      = if c = 0 then l.map fun i => Sample.mk (latF i) (lonF i) c i else [] := by
  induction l with
  | nil => simp
  | cons a t ih =>
      by_cases hc : c = 0
      · subst hc; simp_all [List.filter_cons]
      · simp_all [List.filter_cons, hc]

lemma gridSamples_filter_center (jsin jscos : ℚ → ℚ) (jpi cLat cLng r : ℚ) :
    (gridSamples jsin jscos jpi cLat cLng r).filter (fun q => q.ring == 0)
      = [{ lat := cLat, lon := cLng, ring := 0, idx := 0 }] := by
  rw [gridSamples, show List.range numRings = [0, 1, 2, 3, 4] from rfl]
  simp only [List.flatMap_cons, List.flatMap_nil, List.append_nil, List.filter_append,
    filter_ring0_block]
  norm_num
  simp [pointsPerRing, List.range_succ]

/-! ## Claim theorems: the polar grid -/

/-- C2: the grid has exactly 81 points; the point of ring `i` and slot `j`
lies at radius `(i/4) * radiusKm` and angle `2π·j/pointsInRing`, offset from
the center by the equirectangular conversion
`lat = centerLat + (ringRadius/111.32)·sin(angle)`,
`lon = centerLon + (ringRadius/(111.32·cos(centerLat in radians)))·cos(angle)`;
and ring 0 contributes exactly one point, the center itself. -/
theorem grid_generation_spec (jsin jscos : ℚ → ℚ) (jpi cLat cLng r : ℚ)
    (s : Sample) (hs : s ∈ gridSamples jsin jscos jpi cLat cLng r) :
    (gridSamples jsin jscos jpi cLat cLng r).length = 81
    ∧ (gridSamples jsin jscos jpi cLat cLng r).filter (fun q => q.ring == 0)
        = [{ lat := cLat, lon := cLng, ring := 0, idx := 0 }]
    ∧ s.ring < 5
    ∧ s.idx < pointsPerRing.getD s.ring 0
    ∧ s.lat = cLat + ((s.ring : ℚ) / 4) * r / (111.32 : ℚ)
        * jsin (2 * jpi * (s.idx : ℚ) / (pointsPerRing.getD s.ring 0 : ℚ))
    ∧ s.lon = cLng + ((s.ring : ℚ) / 4) * r / ((111.32 : ℚ) * jscos (cLat * jpi / 180))
        * jscos (2 * jpi * (s.idx : ℚ) / (pointsPerRing.getD s.ring 0 : ℚ)) := by
  refine ⟨gridSamples_length _ _ _ _ _ _, gridSamples_filter_center _ _ _ _ _ _, ?_⟩
  obtain ⟨ring, hring, i, hi, rfl⟩ := gridSamples_mem.mp hs
  have h4 : ((numRings : ℚ) - 1) = 4 := by norm_num [numRings]
  have hang : ((i : ℚ) / (pointsPerRing.getD ring 0 : ℚ)) * 2 * jpi
      = 2 * jpi * (i : ℚ) / (pointsPerRing.getD ring 0 : ℚ) := by ring
  exact ⟨hring, hi, by rw [h4, hang], by rw [h4, hang]⟩

/-- C2 witness: the center sample of a concrete grid. -/
theorem grid_generation_spec_witness :
    (Sample.mk 60 10 0 0) ∈ gridSamples (fun _ => 0) (fun _ => 1) 3 60 10 10
    ∧ (gridSamples (fun _ => 0) (fun _ => 1) 3 60 10 10).length = 81 := by
  have hmem : (Sample.mk 60 10 0 0) ∈ gridSamples (fun _ => 0) (fun _ => 1) 3 60 10 10 := by
    rw [gridSamples_mem]
    refine ⟨0, by norm_num [numRings], 0, by norm_num [pointsPerRing], ?_⟩
    norm_num [Sample.mk.injEq]
  exact ⟨hmem, (grid_generation_spec (fun _ => 0) (fun _ => 1) 3 60 10 10
    (Sample.mk 60 10 0 0) hmem).1⟩

/-! ## Claim theorems: input validation -/

/-- C6: with all three weights zero the search fails immediately with the
invalid-input error and issues zero weather-provider requests. -/
theorem zero_weights_fail_fast (darkMode : Bool)
    (searchRadius latitude longitude : ℚ) (jsin jscos : ℚ → ℚ) (jpi : ℚ)
    (met : MetProvider) (geo : GeoProvider) :
    (processLocation 0 0 0 darkMode searchRadius latitude longitude
        jsin jscos jpi met geo).result = .error .invalidInput
    ∧ (processLocation 0 0 0 darkMode searchRadius latitude longitude
        jsin jscos jpi met geo).metCalls = 0 := by
  constructor <;> simp [processLocation]

/-! ## Supporting lemmas: segment projection -/

lemma segPoint_zero (s e : Pt) : segPoint s e 0 = s := by
  ext <;> simp [segPoint]

lemma segPoint_one (s e : Pt) : segPoint s e 1 = e := by
  ext <;> simp [segPoint]

lemma projectToLine_eq_segPoint (p s e : Pt) :
    projectToLine p s e = segPoint s e (clampedParam p s e) := by
  unfold projectToLine clampedParam clampNum
  dsimp only
  by_cases hL : (e.x - s.x) * (e.x - s.x) + (e.y - s.y) * (e.y - s.y) ≠ 0
  · simp only [if_pos hL]
    split_ifs with h1 h2
    · exact (segPoint_zero s e).symm
    · exact (segPoint_one s e).symm
    · ext <;> simp [segPoint]
  · simp only [if_neg hL]
    rw [if_pos (by norm_num : (-1 : ℚ) < 0), if_pos (by norm_num : (-1 : ℚ) < 0)]
    exact (segPoint_zero s e).symm

lemma clampedParam_bounds (p s e : Pt) :
    0 ≤ clampedParam p s e ∧ clampedParam p s e ≤ 1 := by
  unfold clampedParam clampNum
  dsimp only
  by_cases hL : (e.x - s.x) * (e.x - s.x) + (e.y - s.y) * (e.y - s.y) ≠ 0
  · simp only [if_pos hL]
    split_ifs with h1 h2
    · exact ⟨le_refl 0, zero_le_one⟩
    · exact ⟨zero_le_one, le_refl 1⟩
    · exact ⟨le_of_not_lt h1, le_of_not_lt h2⟩
  · simp only [if_neg hL]
    rw [if_pos (by norm_num : (-1 : ℚ) < 0)]
    exact ⟨le_refl 0, zero_le_one⟩

lemma projectToLine_onSeg (p s e : Pt) : OnSeg s e (projectToLine p s e) :=
  ⟨clampedParam p s e, (clampedParam_bounds p s e).1, (clampedParam_bounds p s e).2,
    projectToLine_eq_segPoint p s e⟩

lemma distSq_segPoint (p s e : Pt) (t : ℚ) :
    distSq p (segPoint s e t)
      = ((p.x - s.x) ^ 2 + (p.y - s.y) ^ 2)
        - 2 * t * ((p.x - s.x) * (e.x - s.x) + (p.y - s.y) * (e.y - s.y))
        + t ^ 2 * ((e.x - s.x) * (e.x - s.x) + (e.y - s.y) * (e.y - s.y)) := by
  simp only [distSq, segPoint]
  ring

lemma clampNum_min (E dot lenSq t : ℚ) (hlenpos : 0 ≤ lenSq)
    (hdeg : lenSq = 0 → dot = 0) (ht0 : 0 ≤ t) (ht1 : t ≤ 1) :
    E - 2 * clampNum dot lenSq * dot + clampNum dot lenSq ^ 2 * lenSq
      ≤ E - 2 * t * dot + t ^ 2 * lenSq := by
  unfold clampNum
  dsimp only
  rcases eq_or_lt_of_le hlenpos with heq | hpos
  · have hdot := hdeg heq.symm
    rw [hdot, ← heq]
    simp
  · have hne : lenSq ≠ 0 := ne_of_gt hpos
    rw [if_pos hne]
    have hdl : dot / lenSq * lenSq = dot := div_mul_cancel₀ _ hne
    by_cases hu0 : dot / lenSq < 0
    · rw [if_pos hu0]
      have hdot : dot < 0 := by
        have := mul_neg_of_neg_of_pos hu0 hpos
        rwa [hdl] at this
      nlinarith [mul_nonneg ht0 (by linarith : (0 : ℚ) ≤ -dot),
        mul_nonneg (mul_nonneg ht0 ht0) hpos.le]
    · rw [if_neg hu0]
      by_cases hu1 : dot / lenSq > 1
      · rw [if_pos hu1]
        have hdot : lenSq < dot := by
          have := mul_lt_mul_of_pos_right hu1 hpos
          rwa [hdl, one_mul] at this
        nlinarith [mul_nonneg (by linarith : (0 : ℚ) ≤ 1 - t) (by linarith : (0 : ℚ) ≤ dot - lenSq),
          mul_nonneg (mul_nonneg (by linarith : (0 : ℚ) ≤ 1 - t) (by linarith : (0 : ℚ) ≤ 1 - t)) hpos.le]
      · rw [if_neg hu1]
        have key : (E - 2 * t * dot + t ^ 2 * lenSq)
            - (E - 2 * (dot / lenSq) * dot + (dot / lenSq) ^ 2 * lenSq)
            = (t * lenSq - dot) ^ 2 / lenSq := by
          field_simp
          ring
        have hnn : (0 : ℚ) ≤ (t * lenSq - dot) ^ 2 / lenSq :=
          div_nonneg (sq_nonneg _) hpos.le
        linarith [key, hnn]

lemma projectToLine_min (p s e q : Pt) (hq : OnSeg s e q) :
    distSq p (projectToLine p s e) ≤ distSq p q := by
  obtain ⟨t, ht0, ht1, rfl⟩ := hq
  rw [projectToLine_eq_segPoint, distSq_segPoint, distSq_segPoint]
  unfold clampedParam
  refine clampNum_min _ _ _ t ?_ ?_ ht0 ht1
  · nlinarith [mul_self_nonneg (e.x - s.x), mul_self_nonneg (e.y - s.y)]
  · intro h
    have hC : e.x - s.x = 0 := by
      nlinarith [mul_self_nonneg (e.x - s.x), mul_self_nonneg (e.y - s.y)]
    have hD : e.y - s.y = 0 := by
      nlinarith [mul_self_nonneg (e.x - s.x), mul_self_nonneg (e.y - s.y)]
    rw [hC, hD]
    ring

lemma closestEdgePoint_three (p : Pt) (e1 e2 e3 : Pt × Pt) :
    (closestEdgePoint p [e1, e2, e3] = projectToLine p e1.1 e1.2
      ∨ closestEdgePoint p [e1, e2, e3] = projectToLine p e2.1 e2.2
      ∨ closestEdgePoint p [e1, e2, e3] = projectToLine p e3.1 e3.2)
    ∧ distSq p (closestEdgePoint p [e1, e2, e3]) ≤ distSq p (projectToLine p e1.1 e1.2)
    ∧ distSq p (closestEdgePoint p [e1, e2, e3]) ≤ distSq p (projectToLine p e2.1 e2.2)
    ∧ distSq p (closestEdgePoint p [e1, e2, e3]) ≤ distSq p (projectToLine p e3.1 e3.2) := by
  unfold closestEdgePoint
  simp only [List.foldl_cons, List.foldl_nil]
  by_cases h21 : distSq p (projectToLine p e2.1 e2.2) < distSq p (projectToLine p e1.1 e1.2)
  · rw [if_pos h21]
    dsimp only
    by_cases h32 : distSq p (projectToLine p e3.1 e3.2) < distSq p (projectToLine p e2.1 e2.2)
    · rw [if_pos h32]
      dsimp only
      exact ⟨Or.inr (Or.inr rfl), by linarith, h32.le, le_refl _⟩
    · rw [if_neg h32]
      dsimp only
      exact ⟨Or.inr (Or.inl rfl), h21.le, le_refl _, le_of_not_lt h32⟩
  · rw [if_neg h21]
    dsimp only
    by_cases h31 : distSq p (projectToLine p e3.1 e3.2) < distSq p (projectToLine p e1.1 e1.2)
    · rw [if_pos h31]
      dsimp only
      exact ⟨Or.inr (Or.inr rfl), h31.le, by linarith [le_of_not_lt h21], le_refl _⟩
    · rw [if_neg h31]
      dsimp only
      exact ⟨Or.inl rfl, le_refl _, le_of_not_lt h21, le_of_not_lt h31⟩

/-! ## Supporting lemmas: barycentric coordinates -/

lemma triArea_sum (vA vB vC p : Pt) :
    triArea p vB vC + triArea vA p vC + triArea vA vB p = triArea vA vB vC := by
  unfold triArea
  ring

lemma triArea_self12 (p q : Pt) : triArea p p q = 0 := by unfold triArea; ring

lemma triArea_self13 (p q : Pt) : triArea p q p = 0 := by unfold triArea; ring

lemma triArea_self23 (p q : Pt) : triArea p q q = 0 := by unfold triArea; ring

lemma div_self_nonneg (a : ℚ) : 0 ≤ a / a := by
  rcases eq_or_ne a 0 with h | h
  · simp [h]
  · rw [div_self h]; norm_num

lemma bary_sum (vA vB vC : Pt) (h : triArea vA vB vC ≠ 0) (p : Pt) :
    (barycentric vA vB vC p).wA + (barycentric vA vB vC p).wB
      + (barycentric vA vB vC p).wC = 1 := by
  unfold barycentric
  dsimp only
  rw [div_add_div_same, div_add_div_same, triArea_sum, div_self h]

lemma triArea_affine1 (s e q r : Pt) (t : ℚ) :
    triArea (segPoint s e t) q r = (1 - t) * triArea s q r + t * triArea e q r := by
  unfold triArea segPoint
  dsimp only
  ring

lemma triArea_affine2 (q s e r : Pt) (t : ℚ) :
    triArea q (segPoint s e t) r = (1 - t) * triArea q s r + t * triArea q e r := by
  unfold triArea segPoint
  dsimp only
  ring

lemma triArea_affine3 (q r s e : Pt) (t : ℚ) :
    triArea q r (segPoint s e t) = (1 - t) * triArea q r s + t * triArea q r e := by
  unfold triArea segPoint
  dsimp only
  ring

lemma bary_segPoint_wA (vA vB vC s e : Pt) (t : ℚ) :
    (barycentric vA vB vC (segPoint s e t)).wA
      = (1 - t) * (barycentric vA vB vC s).wA + t * (barycentric vA vB vC e).wA := by
  unfold barycentric
  dsimp only
  rw [triArea_affine1]
  ring

lemma bary_segPoint_wB (vA vB vC s e : Pt) (t : ℚ) :
    (barycentric vA vB vC (segPoint s e t)).wB
      = (1 - t) * (barycentric vA vB vC s).wB + t * (barycentric vA vB vC e).wB := by
  unfold barycentric
  dsimp only
  rw [triArea_affine2]
  ring

lemma bary_segPoint_wC (vA vB vC s e : Pt) (t : ℚ) :
    (barycentric vA vB vC (segPoint s e t)).wC
      = (1 - t) * (barycentric vA vB vC s).wC + t * (barycentric vA vB vC e).wC := by
  unfold barycentric
  dsimp only
  rw [triArea_affine3]
  ring

/-- Every barycentric component of every triangle vertex is nonnegative (it is
`areaTotal/areaTotal`, i.e. `1` — or `0` for a degenerate triangle — on the
diagonal, and `0` off the diagonal). -/
lemma bary_vertex_nonneg (vA vB vC : Pt) :
    (0 ≤ (barycentric vA vB vC vA).wA ∧ 0 ≤ (barycentric vA vB vC vA).wB
        ∧ 0 ≤ (barycentric vA vB vC vA).wC)
    ∧ (0 ≤ (barycentric vA vB vC vB).wA ∧ 0 ≤ (barycentric vA vB vC vB).wB
        ∧ 0 ≤ (barycentric vA vB vC vB).wC)
    ∧ (0 ≤ (barycentric vA vB vC vC).wA ∧ 0 ≤ (barycentric vA vB vC vC).wB
        ∧ 0 ≤ (barycentric vA vB vC vC).wC) := by
  unfold barycentric
  dsimp only
  refine ⟨⟨div_self_nonneg _, ?_, ?_⟩, ⟨?_, div_self_nonneg _, ?_⟩,
    ⟨?_, ?_, div_self_nonneg _⟩⟩
  · rw [triArea_self12]; simp
  · rw [triArea_self13]; simp
  · rw [triArea_self12]; simp
  · rw [triArea_self23]; simp
  · rw [triArea_self13]; simp
  · rw [triArea_self23]; simp

lemma bary_nonneg_of_onSeg (vA vB vC s e q : Pt)
    (hs : 0 ≤ (barycentric vA vB vC s).wA ∧ 0 ≤ (barycentric vA vB vC s).wB
        ∧ 0 ≤ (barycentric vA vB vC s).wC)
    (he : 0 ≤ (barycentric vA vB vC e).wA ∧ 0 ≤ (barycentric vA vB vC e).wB
        ∧ 0 ≤ (barycentric vA vB vC e).wC)
    (hq : OnSeg s e q) :
    0 ≤ (barycentric vA vB vC q).wA ∧ 0 ≤ (barycentric vA vB vC q).wB
      ∧ 0 ≤ (barycentric vA vB vC q).wC := by
  obtain ⟨t, ht0, ht1, rfl⟩ := hq
  have h1t : (0 : ℚ) ≤ 1 - t := by linarith
  refine ⟨?_, ?_, ?_⟩
  · rw [bary_segPoint_wA]
    exact add_nonneg (mul_nonneg h1t hs.1) (mul_nonneg ht0 he.1)
  · rw [bary_segPoint_wB]
    exact add_nonneg (mul_nonneg h1t hs.2.1) (mul_nonneg ht0 he.2.1)
  · rw [bary_segPoint_wC]
    exact add_nonneg (mul_nonneg h1t hs.2.2) (mul_nonneg ht0 he.2.2)

/-- The constrained point always has nonnegative barycentric components: an
inside point satisfies the guard, an outside point is replaced by a projection
lying on one of the three closed edges. -/
lemma constrain_bary_nonneg (vA vB vC p : Pt) :
    0 ≤ (barycentric vA vB vC (constrainToTriangle vA vB vC p)).wA
    ∧ 0 ≤ (barycentric vA vB vC (constrainToTriangle vA vB vC p)).wB
    ∧ 0 ≤ (barycentric vA vB vC (constrainToTriangle vA vB vC p)).wC := by
  have hv := bary_vertex_nonneg vA vB vC
  unfold constrainToTriangle
  dsimp only
  split_ifs with h
  · exact h
  · rcases (closestEdgePoint_three p (vA, vB) (vB, vC) (vA, vC)).1 with he | he | he <;>
      rw [he]
    · exact bary_nonneg_of_onSeg vA vB vC vA vB _ hv.1 hv.2.1 (projectToLine_onSeg p vA vB)
    · exact bary_nonneg_of_onSeg vA vB vC vB vC _ hv.2.1 hv.2.2 (projectToLine_onSeg p vB vC)
    · exact bary_nonneg_of_onSeg vA vB vC vA vC _ hv.1 hv.2.2 (projectToLine_onSeg p vA vC)

/-! ## Claim theorems: geometry -/

/-- C4: a point with all barycentric weights ≥ 0 is returned unchanged;
otherwise the result is one of the three clamped edge projections, and no
point of any closed edge is strictly closer to `p` (stated via squared
distances, equivalent under the strict monotonicity of `sqrt` on
nonnegatives). -/
theorem constrainToTriangle_spec (vA vB vC p : Pt) :
    ((0 ≤ (barycentric vA vB vC p).wA ∧ 0 ≤ (barycentric vA vB vC p).wB
        ∧ 0 ≤ (barycentric vA vB vC p).wC) →
      constrainToTriangle vA vB vC p = p)
    ∧ (¬ (0 ≤ (barycentric vA vB vC p).wA ∧ 0 ≤ (barycentric vA vB vC p).wB
        ∧ 0 ≤ (barycentric vA vB vC p).wC) →
      (constrainToTriangle vA vB vC p = projectToLine p vA vB
        ∨ constrainToTriangle vA vB vC p = projectToLine p vB vC
        ∨ constrainToTriangle vA vB vC p = projectToLine p vA vC)
      ∧ ∀ q : Pt, OnSeg vA vB q ∨ OnSeg vB vC q ∨ OnSeg vA vC q →
          distSq p (constrainToTriangle vA vB vC p) ≤ distSq p q) := by
  constructor
  · intro h
    unfold constrainToTriangle
    dsimp only
    rw [if_pos h]
  · intro h
    have heq : constrainToTriangle vA vB vC p
        = closestEdgePoint p [(vA, vB), (vB, vC), (vA, vC)] := by
      unfold constrainToTriangle
      dsimp only
      rw [if_neg h]
    have hC := closestEdgePoint_three p (vA, vB) (vB, vC) (vA, vC)
    rw [heq]
    refine ⟨hC.1, ?_⟩
    intro q hq
    rcases hq with hq | hq | hq
    · exact le_trans hC.2.1 (projectToLine_min p vA vB q hq)
    · exact le_trans hC.2.2.1 (projectToLine_min p vB vC q hq)
    · exact le_trans hC.2.2.2 (projectToLine_min p vA vC q hq)

/-- C4 witness: the point `(5,5)` outside the triangle `(0,0),(4,0),(0,4)`;
the vertex `(4,0)` lies on the first edge, so the constrained point is at
most that far away. -/
theorem constrainToTriangle_spec_witness :
    distSq ⟨5, 5⟩ (constrainToTriangle ⟨0, 0⟩ ⟨4, 0⟩ ⟨0, 4⟩ ⟨5, 5⟩)
      ≤ distSq ⟨5, 5⟩ ⟨4, 0⟩ :=
  ((constrainToTriangle_spec ⟨0, 0⟩ ⟨4, 0⟩ ⟨0, 4⟩ ⟨5, 5⟩).2
      (by norm_num [barycentric, triArea])).2
    ⟨4, 0⟩ (Or.inl ⟨1, by norm_num, by norm_num, by ext <;> norm_num [segPoint]⟩)

/-- C5: for a nondegenerate triangle, the weight triple produced by a drag —
constrain, take barycentric coordinates, normalize by their sum — has all
components ≥ 0 and sums exactly to 1; and whenever the raw sum is ≤ 0 the
prior weights are kept unchanged. -/
theorem drag_weights_normalized (vA vB vC : Pt) (prior : Weights) (x y : ℚ) :
    (triArea vA vB vC ≠ 0 →
      0 ≤ (handleDrag vA vB vC prior x y).2.sol
      ∧ 0 ≤ (handleDrag vA vB vC prior x y).2.temp
      ∧ 0 ≤ (handleDrag vA vB vC prior x y).2.wind
      ∧ (handleDrag vA vB vC prior x y).2.sol + (handleDrag vA vB vC prior x y).2.temp
          + (handleDrag vA vB vC prior x y).2.wind = 1)
    ∧ ((barycentric vA vB vC (constrainToTriangle vA vB vC ⟨x, y⟩)).wA
        + (barycentric vA vB vC (constrainToTriangle vA vB vC ⟨x, y⟩)).wB
        + (barycentric vA vB vC (constrainToTriangle vA vB vC ⟨x, y⟩)).wC ≤ 0 →
      (handleDrag vA vB vC prior x y).2 = prior) := by
  constructor
  · intro hT
    have hsum := bary_sum vA vB vC hT (constrainToTriangle vA vB vC ⟨x, y⟩)
    have hnn := constrain_bary_nonneg vA vB vC ⟨x, y⟩
    unfold handleDrag
    dsimp only
    rw [hsum, if_pos (by norm_num : (0 : ℚ) < 1)]
    dsimp only
    rw [div_one, div_one, div_one]
    exact ⟨hnn.1, hnn.2.1, hnn.2.2, hsum⟩
  · intro hle
    unfold handleDrag
    dsimp only
    rw [if_neg (not_lt.mpr hle)]

/-- C5 witness: a drag to `(5,5)` against the triangle `(0,0),(4,0),(0,4)`. -/
theorem drag_weights_normalized_witness :
    0 ≤ (handleDrag ⟨0, 0⟩ ⟨4, 0⟩ ⟨0, 4⟩ ⟨0, 0, 0⟩ 5 5).2.sol
    ∧ 0 ≤ (handleDrag ⟨0, 0⟩ ⟨4, 0⟩ ⟨0, 4⟩ ⟨0, 0, 0⟩ 5 5).2.temp
    ∧ 0 ≤ (handleDrag ⟨0, 0⟩ ⟨4, 0⟩ ⟨0, 4⟩ ⟨0, 0, 0⟩ 5 5).2.wind
    ∧ (handleDrag ⟨0, 0⟩ ⟨4, 0⟩ ⟨0, 4⟩ ⟨0, 0, 0⟩ 5 5).2.sol
        + (handleDrag ⟨0, 0⟩ ⟨4, 0⟩ ⟨0, 4⟩ ⟨0, 0, 0⟩ 5 5).2.temp
        + (handleDrag ⟨0, 0⟩ ⟨4, 0⟩ ⟨0, 4⟩ ⟨0, 0, 0⟩ 5 5).2.wind = 1 :=
  (drag_weights_normalized ⟨0, 0⟩ ⟨4, 0⟩ ⟨0, 4⟩ ⟨0, 0, 0⟩ 5 5).1
    (by norm_num [triArea])

/-! ## Supporting lemmas: the scan fold -/

lemma scanStep_error (wSol wTemp wWind : ℚ) (darkMode : Bool) (met : MetProvider)
    (acc : List WeatherSpot × Option WeatherSpot) (p : Sample) (e : FetchError)
    (h : met p.lat p.lon = .error e) :
    scanStep wSol wTemp wWind darkMode met acc p = acc := by
  unfold scanStep
  rw [h]

lemma scanSamples_all_error (wSol wTemp wWind : ℚ) (darkMode : Bool)
    (met : MetProvider) (h : ∀ la lo, met la lo = .error .fetchError) :
    ∀ samples : List Sample,
      scanSamples wSol wTemp wWind darkMode met samples = ([], none) := by
  intro samples
  unfold scanSamples
  induction samples with
  | nil => rfl
  | cons p t ih =>
      rw [List.foldl_cons, scanStep_error _ _ _ _ _ _ _ _ (h p.lat p.lon)]
      exact ih

lemma scanStep_inv (wSol wTemp wWind : ℚ) (darkMode : Bool) (met : MetProvider)
    (acc : List WeatherSpot × Option WeatherSpot) (p : Sample)
    (h : ScanInv acc) : ScanInv (scanStep wSol wTemp wWind darkMode met acc p) := by
  unfold scanStep
  cases hmet : met p.lat p.lon with
  | error e => exact h
  | ok data =>
      dsimp only
      cases heval : evalSpot wSol wTemp wWind darkMode p data with
      | none => exact h
      | some spot =>
          dsimp only
          cases hacc : acc.2 with
          | none =>
              have hnil := h.1 hacc
              dsimp only
              constructor
              · intro hn
                simp at hn
              · intro b hb
                have hsb : spot = b := by simpa using hb
                subst hsb
                refine ⟨[], [], by simp [hnil], by simp, ?_⟩
                intro s hs
                simp only [hnil, List.nil_append, List.mem_singleton] at hs
                rw [hs]
          | some b0 =>
              obtain ⟨pre, post, hsplit, hpre, hall⟩ := h.2 b0 hacc
              dsimp only
              by_cases hlt : b0.score < spot.score
              · rw [if_pos hlt]
                constructor
                · intro hn
                  simp at hn
                · intro b hb
                  have hsb : spot = b := by simpa using hb
                  subst hsb
                  refine ⟨acc.1, [], by simp, ?_, ?_⟩
                  · intro s hs
                    exact lt_of_le_of_lt (hall s hs) hlt
                  · intro s hs
                    rcases List.mem_append.mp hs with hs | hs
                    · exact (lt_of_le_of_lt (hall s hs) hlt).le
                    · rw [List.mem_singleton.mp hs]
              · rw [if_neg hlt]
                constructor
                · intro hn
                  simp at hn
                · intro b hb
                  have hsb : b0 = b := by simpa using hb
                  subst hsb
                  refine ⟨pre, post ++ [spot], by rw [hsplit]; simp, hpre, ?_⟩
                  intro s hs
                  rcases List.mem_append.mp hs with hs | hs
                  · exact hall s hs
                  · rw [List.mem_singleton.mp hs]
                    exact le_of_not_lt hlt

lemma scanSamples_inv (wSol wTemp wWind : ℚ) (darkMode : Bool) (met : MetProvider)
    (samples : List Sample) :
    ScanInv (scanSamples wSol wTemp wWind darkMode met samples) := by
  unfold scanSamples
  suffices h : ∀ acc, ScanInv acc →
      ScanInv (samples.foldl (scanStep wSol wTemp wWind darkMode met) acc) by
    exact h ([], none) ⟨fun _ => rfl, fun b hb => by simp at hb⟩
  induction samples with
  | nil => exact fun acc hacc => hacc
  | cons p t ih =>
      intro acc hacc
      exact ih _ (scanStep_inv _ _ _ _ _ _ _ hacc)

/-! ## Supporting lemmas: sorting and naming -/

lemma sortSpots_perm (l : List WeatherSpot) : l.Perm (sortSpots l) :=
  (List.mergeSort_perm l _).symm

lemma sortSpots_pairwise (l : List WeatherSpot) :
    (sortSpots l).Pairwise fun a b => b.score ≤ a.score := by
  have h := @List.sorted_mergeSort WeatherSpot
    (fun a b : WeatherSpot => decide (b.score ≤ a.score))
    (fun a b c hab hbc =>
      decide_eq_true (le_trans (of_decide_eq_true hbc) (of_decide_eq_true hab)))
    (fun a b => by
      rcases le_total b.score a.score with hh | hh <;> simp [hh]) l
  exact h.imp fun hab => of_decide_eq_true hab

lemma nameTopSpots_map_spot (geo : GeoProvider) :
    ∀ (i : ℕ) (l : List WeatherSpot),
      (nameTopSpots geo i l).map (fun n => n.spot) = l
  | _, [] => rfl
  | i, spot :: rest => by
      unfold nameTopSpots
      cases geo spot.lat spot.lon <;>
        simp [nameTopSpots_map_spot geo (i + 1) rest]

lemma nameTopSpots_length (geo : GeoProvider) (i : ℕ) (l : List WeatherSpot) :
    (nameTopSpots geo i l).length = l.length := by
  have h := congrArg List.length (nameTopSpots_map_spot geo i l)
  simpa using h

lemma nameTopSpots_get (geo : GeoProvider) :
    ∀ (l : List WeatherSpot) (i0 i : ℕ) (hi : i < l.length)
      (hi2 : i < (nameTopSpots geo i0 l).length),
      (nameTopSpots geo i0 l).get ⟨i, hi2⟩
        = match geo (l.get ⟨i, hi⟩).lat (l.get ⟨i, hi⟩).lon with
          | .ok addrName =>
              { spot := l.get ⟨i, hi⟩, name := addrName.getD (spotLabel (i0 + i + 1)),
                rank := i0 + i + 1 }
          | .error _ =>
              { spot := l.get ⟨i, hi⟩, name := spotLabel (i0 + i + 1),
                rank := i0 + i + 1 }
  | [], _, i, hi, _ => absurd hi (by simp)
  | spot :: rest, i0, 0, hi, hi2 => by
      simp only [nameTopSpots]
      dsimp only [List.get]
  | spot :: rest, i0, i + 1, hi, hi2 => by
      have hi2cons : i + 1 < (nameTopSpots geo i0 (spot :: rest)).length := hi2
      have hi1 : i < rest.length := by simpa using hi
      have hi2 : i < (nameTopSpots geo (i0 + 1) rest).length := by
        rw [nameTopSpots_length]
        exact hi1
      have ih := nameTopSpots_get geo rest (i0 + 1) i hi1 hi2
      have harith : i0 + 1 + i + 1 = i0 + (i + 1) + 1 := by omega
      simp only [nameTopSpots]
      rw [List.get_cons_succ, List.get_cons_succ, ih, harith]

/-! ## Supporting lemmas: orchestrator control flow -/

/-- The non-early-return branch of `processLocation`: with a nonzero weight
sum the outcome is fully determined by the scan, the final best-point fetch,
the sorter and the namers. -/
lemma processLocation_eq (solWeight tempWeight windWeight : ℚ) (darkMode : Bool)
    (searchRadius latitude longitude : ℚ) (jsin jscos : ℚ → ℚ) (jpi : ℚ)
    (met : MetProvider) (geo : GeoProvider)
    (hW : solWeight + tempWeight + windWeight ≠ 0) :
    processLocation solWeight tempWeight windWeight darkMode
        searchRadius latitude longitude jsin jscos jpi met geo
      = (match (scanSamples (solWeight / (solWeight + tempWeight + windWeight))
            (tempWeight / (solWeight + tempWeight + windWeight))
            (windWeight / (solWeight + tempWeight + windWeight)) darkMode met
            (gridSamples jsin jscos jpi latitude longitude searchRadius)).2 with
         | none =>
             { result := .error .typeError,
               metCalls := (gridSamples jsin jscos jpi latitude longitude searchRadius).length }
         | some bestPoint =>
             match met bestPoint.lat bestPoint.lon with
             | .error _ =>
                 { result := .error .fetchErr,
                   metCalls := (gridSamples jsin jscos jpi latitude longitude searchRadius).length + 1 }
             | .ok fData =>
                 { result := .ok
                     { best := { spot := bestPoint, name := bestPlaceName geo bestPoint,
                                 forecast := fData.timeseries }
                       topK := nameTopSpots geo 0
                         ((sortSpots (scanSamples
                             (solWeight / (solWeight + tempWeight + windWeight))
                             (tempWeight / (solWeight + tempWeight + windWeight))
                             (windWeight / (solWeight + tempWeight + windWeight)) darkMode met
                             (gridSamples jsin jscos jpi latitude longitude searchRadius)).1).take 3) }
                   metCalls := (gridSamples jsin jscos jpi latitude longitude searchRadius).length + 1 }) := by
  unfold processLocation
  rw [if_neg hW]

/-! ## Claim theorems: orchestrator error handling -/

/-- C1 (code_bug evidence): when every forecast fetch fails, the search does
not fail with the spec's `NoDataError` — it crashes with the `TypeError`
raised by dereferencing the `null` best point (lines 675/682), leaving no
result. -/
theorem all_fetches_fail_typeError (solWeight tempWeight windWeight : ℚ)
    (darkMode : Bool) (searchRadius latitude longitude : ℚ)
    (jsin jscos : ℚ → ℚ) (jpi : ℚ) (met : MetProvider) (geo : GeoProvider)
    (hW : solWeight + tempWeight + windWeight ≠ 0)
    (hmet : ∀ la lo, met la lo = .error .fetchError) :
    (processLocation solWeight tempWeight windWeight darkMode
        searchRadius latitude longitude jsin jscos jpi met geo).result
      = .error .typeError
    ∧ (processLocation solWeight tempWeight windWeight darkMode
        searchRadius latitude longitude jsin jscos jpi met geo).result
      ≠ .error .noDataError := by
  rw [processLocation_eq _ _ _ _ _ _ _ _ _ _ _ _ hW,
    scanSamples_all_error _ _ _ _ _ hmet]
  dsimp only
  exact ⟨rfl, by simp⟩

/-- C1 witness: a concrete always-failing provider. -/
theorem all_fetches_fail_typeError_witness :
    (processLocation 1 0 0 false 10 60 10 (fun _ => 0) (fun _ => 0) 0
        (fun _ _ => .error .fetchError) (fun _ _ => .error .lookupError)).result
      = .error .typeError
    ∧ (processLocation 1 0 0 false 10 60 10 (fun _ => 0) (fun _ => 0) 0
        (fun _ _ => .error .fetchError) (fun _ _ => .error .lookupError)).result
      ≠ .error .noDataError :=
  all_fetches_fail_typeError 1 0 0 false 10 60 10 (fun _ => 0) (fun _ => 0) 0
    (fun _ _ => .error .fetchError) (fun _ _ => .error .lookupError)
    (by norm_num) (fun _ _ => rfl)

/-- Inversion: a search that settles with `.ok rr` passed validation, its scan
produced a best point whose final forecast fetch succeeded, and `rr` is the
assembled result. -/
lemma processLocation_ok_inv (solWeight tempWeight windWeight : ℚ)
    (darkMode : Bool) (searchRadius latitude longitude : ℚ)
    (jsin jscos : ℚ → ℚ) (jpi : ℚ) (met : MetProvider) (geo : GeoProvider)
    (rr : SearchResult)
    (hok : (processLocation solWeight tempWeight windWeight darkMode
        searchRadius latitude longitude jsin jscos jpi met geo).result = .ok rr) :
    solWeight + tempWeight + windWeight ≠ 0
    ∧ ∃ bp fd,
        (scanSamples (solWeight / (solWeight + tempWeight + windWeight))
            (tempWeight / (solWeight + tempWeight + windWeight))
            (windWeight / (solWeight + tempWeight + windWeight)) darkMode met
            (gridSamples jsin jscos jpi latitude longitude searchRadius)).2 = some bp
        ∧ met bp.lat bp.lon = .ok fd
        ∧ rr = { best := { spot := bp, name := bestPlaceName geo bp,
                           forecast := fd.timeseries },
                 topK := nameTopSpots geo 0
                   ((sortSpots (scanSamples
                       (solWeight / (solWeight + tempWeight + windWeight))
                       (tempWeight / (solWeight + tempWeight + windWeight))
                       (windWeight / (solWeight + tempWeight + windWeight)) darkMode met
                       (gridSamples jsin jscos jpi latitude longitude searchRadius)).1).take 3) } := by
  by_cases hW : solWeight + tempWeight + windWeight = 0
  · exfalso
    unfold processLocation at hok
    rw [if_pos hW] at hok
    exact absurd hok (by simp)
  · refine ⟨hW, ?_⟩
    rw [processLocation_eq _ _ _ _ _ _ _ _ _ _ _ _ hW] at hok
    cases hbest : (scanSamples (solWeight / (solWeight + tempWeight + windWeight))
        (tempWeight / (solWeight + tempWeight + windWeight))
        (windWeight / (solWeight + tempWeight + windWeight)) darkMode met
        (gridSamples jsin jscos jpi latitude longitude searchRadius)).2 with
    | none =>
        rw [hbest] at hok
        simp at hok
    | some bp =>
        rw [hbest] at hok
        dsimp only at hok
        cases hfd : met bp.lat bp.lon with
        | error e =>
            rw [hfd] at hok
            simp at hok
        | ok fd =>
            rw [hfd] at hok
            dsimp only at hok
            refine ⟨bp, fd, rfl, hfd, ?_⟩
            injection hok with h
            exact h.symm

/-! ## Claim theorems: ranking and naming -/

/-- C7: whenever the search returns a result, the returned best candidate is
the first element of the pool (in generation/batch order) attaining the
maximal score — strict greater-than comparison, ties keep the earlier point —
and the returned top-K is the first 3 elements of the pool sorted descending
by score. -/
theorem ranking_best_and_topk (solWeight tempWeight windWeight : ℚ)
    (darkMode : Bool) (searchRadius latitude longitude : ℚ)
    (jsin jscos : ℚ → ℚ) (jpi : ℚ) (met : MetProvider) (geo : GeoProvider)
    (rr : SearchResult)
    (hok : (processLocation solWeight tempWeight windWeight darkMode
        searchRadius latitude longitude jsin jscos jpi met geo).result = .ok rr) :
    ∃ pool : List WeatherSpot,
      pool = (scanSamples (solWeight / (solWeight + tempWeight + windWeight))
          (tempWeight / (solWeight + tempWeight + windWeight))
          (windWeight / (solWeight + tempWeight + windWeight)) darkMode met
          (gridSamples jsin jscos jpi latitude longitude searchRadius)).1
      ∧ (∃ pre post, pool = pre ++ rr.best.spot :: post
          ∧ (∀ s ∈ pre, s.score < rr.best.spot.score)
          ∧ ∀ s ∈ pool, s.score ≤ rr.best.spot.score)
      ∧ ∃ sorted : List WeatherSpot, pool.Perm sorted
          ∧ sorted.Pairwise (fun a b => b.score ≤ a.score)
          ∧ rr.topK.map (fun n => n.spot) = sorted.take 3 := by
  obtain ⟨hW, bp, fd, hbest, hfd, hrr⟩ := processLocation_ok_inv solWeight tempWeight
    windWeight darkMode searchRadius latitude longitude jsin jscos jpi met geo rr hok
  refine ⟨_, rfl, ?_, ?_⟩
  · have hinv := scanSamples_inv (solWeight / (solWeight + tempWeight + windWeight))
      (tempWeight / (solWeight + tempWeight + windWeight))
      (windWeight / (solWeight + tempWeight + windWeight)) darkMode met
      (gridSamples jsin jscos jpi latitude longitude searchRadius)
    obtain ⟨pre, post, hsplit, hpre, hall⟩ := hinv.2 bp hbest
    rw [hrr]
    exact ⟨pre, post, hsplit, hpre, hall⟩
  · refine ⟨sortSpots _, sortSpots_perm _, sortSpots_pairwise _, ?_⟩
    rw [hrr]
    exact nameTopSpots_map_spot geo 0 _

/-- C9: geocode outcomes never decide the fate of a search — a search that
returns a result with one reverse geocoder returns a result with any other;
when the lookup for the best point fails, its name falls back to the
fixed"-precision coordinate label, and when the lookup of the top-K entry of
rank `i+1` fails, its name falls back to the `Spot {rank}` label. -/
theorem geocode_failure_tolerated (solWeight tempWeight windWeight : ℚ)
    (darkMode : Bool) (searchRadius latitude longitude : ℚ)
    (jsin jscos : ℚ → ℚ) (jpi : ℚ) (met : MetProvider) (g1 g2 : GeoProvider)
    (rr : SearchResult)
    (hok : (processLocation solWeight tempWeight windWeight darkMode
        searchRadius latitude longitude jsin jscos jpi met g1).result = .ok rr) :
    ∃ rr2 : SearchResult,
      (processLocation solWeight tempWeight windWeight darkMode
          searchRadius latitude longitude jsin jscos jpi met g2).result = .ok rr2
      ∧ rr2.best.spot = rr.best.spot
      ∧ (∀ e : LookupError, g2 rr.best.spot.lat rr.best.spot.lon = .error e →
          rr2.best.name = some (coordLabel rr.best.spot.lat rr.best.spot.lon))
      ∧ rr2.topK.length = rr.topK.length
      ∧ ∀ (i : ℕ) (hi2 : i < rr2.topK.length) (e : LookupError),
          g2 (rr2.topK.get ⟨i, hi2⟩).spot.lat (rr2.topK.get ⟨i, hi2⟩).spot.lon
              = .error e →
          (rr2.topK.get ⟨i, hi2⟩).name = spotLabel (i + 1) := by
  obtain ⟨hW, bp, fd, hbest, hfd, hrr⟩ := processLocation_ok_inv solWeight tempWeight
    windWeight darkMode searchRadius latitude longitude jsin jscos jpi met g1 rr hok
  refine ⟨{ best := { spot := bp, name := bestPlaceName g2 bp, forecast := fd.timeseries },
            topK := nameTopSpots g2 0
              ((sortSpots (scanSamples
                  (solWeight / (solWeight + tempWeight + windWeight))
                  (tempWeight / (solWeight + tempWeight + windWeight))
                  (windWeight / (solWeight + tempWeight + windWeight)) darkMode met
                  (gridSamples jsin jscos jpi latitude longitude searchRadius)).1).take 3) },
    ?_, ?_, ?_, ?_, ?_⟩
  · rw [processLocation_eq _ _ _ _ _ _ _ _ _ _ _ _ hW, hbest]
    dsimp only
    rw [hfd]
  · rw [hrr]
  · intro e he
    rw [hrr] at he
    dsimp only at he ⊢
    rw [hrr]
    dsimp only
    unfold bestPlaceName
    rw [he]
  · rw [hrr]
    dsimp only
    rw [nameTopSpots_length, nameTopSpots_length]
  · intro i hi2 e he
    dsimp only at hi2 he ⊢
    have hiL : i < ((sortSpots (scanSamples
        (solWeight / (solWeight + tempWeight + windWeight))
        (tempWeight / (solWeight + tempWeight + windWeight))
        (windWeight / (solWeight + tempWeight + windWeight)) darkMode met
        (gridSamples jsin jscos jpi latitude longitude searchRadius)).1).take 3).length := by
      rw [← nameTopSpots_length g2 0]
      exact hi2
    have hget := nameTopSpots_get g2 ((sortSpots (scanSamples
        (solWeight / (solWeight + tempWeight + windWeight))
        (tempWeight / (solWeight + tempWeight + windWeight))
        (windWeight / (solWeight + tempWeight + windWeight)) darkMode met
        (gridSamples jsin jscos jpi latitude longitude searchRadius)).1).take 3)
      0 i hiL hi2
    have hspot : ((nameTopSpots g2 0 ((sortSpots (scanSamples
        (solWeight / (solWeight + tempWeight + windWeight))
        (tempWeight / (solWeight + tempWeight + windWeight))
        (windWeight / (solWeight + tempWeight + windWeight)) darkMode met
        (gridSamples jsin jscos jpi latitude longitude searchRadius)).1).take 3)).get
          ⟨i, hi2⟩).spot
        = ((sortSpots (scanSamples
            (solWeight / (solWeight + tempWeight + windWeight))
            (tempWeight / (solWeight + tempWeight + windWeight))
            (windWeight / (solWeight + tempWeight + windWeight)) darkMode met
            (gridSamples jsin jscos jpi latitude longitude searchRadius)).1).take 3).get
          ⟨i, hiL⟩ := by
      rw [hget]
      cases g2 (((sortSpots (scanSamples
          (solWeight / (solWeight + tempWeight + windWeight))
          (tempWeight / (solWeight + tempWeight + windWeight))
          (windWeight / (solWeight + tempWeight + windWeight)) darkMode met
          (gridSamples jsin jscos jpi latitude longitude searchRadius)).1).take 3).get
            ⟨i, hiL⟩).lat (((sortSpots (scanSamples
          (solWeight / (solWeight + tempWeight + windWeight))
          (tempWeight / (solWeight + tempWeight + windWeight))
          (windWeight / (solWeight + tempWeight + windWeight)) darkMode met
          (gridSamples jsin jscos jpi latitude longitude searchRadius)).1).take 3).get
            ⟨i, hiL⟩).lon <;> rfl
    rw [hspot] at he
    rw [hget, he]
    dsimp only
    norm_num

/-! ## Supporting lemmas: a concrete end-to-end run

With zero `sin`/`cos` oracles every grid point collapses onto the center, and
with a constant weather provider every candidate evaluates to the same spot,
which lets the 81-point scan be evaluated by induction instead of by kernel
computation (ℚ arithmetic does not reduce in the kernel). -/

lemma gridSamples_zero_trig (cLat cLng r : ℚ) :
    ∀ s ∈ gridSamples (fun _ => 0) (fun _ => 0) 0 cLat cLng r,
      s.lat = cLat ∧ s.lon = cLng := by
  intro s hs
  obtain ⟨ring, hring, i, hi, rfl⟩ := gridSamples_mem.mp hs
  constructor <;> simp

lemma evalSpot_fd0 (p : Sample) (h1 : p.lat = 60) (h2 : p.lon = 10) :
    evalSpot (1 / (1 + 0 + 0)) (0 / (1 + 0 + 0)) (0 / (1 + 0 + 0)) false p
        ⟨[some ⟨50, 20, 5⟩], ""⟩
      = some ⟨60, 10, 20, 50, 5, none, "", 1/2⟩ := by
  have hfm : List.filterMap id [some (⟨50, 20, 5⟩ : InstantDetails)]
      = [(⟨50, 20, 5⟩ : InstantDetails)] := rfl
  simp only [evalSpot, aggregate24_eq]
  norm_num [hfm, h1, h2, tempSubScore, windSubScore, min_def]

lemma scanSamples_const_aux (wSol wTemp wWind : ℚ) (darkMode : Bool)
    (met : MetProvider) (fd : ForecastData) (c : WeatherSpot)
    (hmet : ∀ la lo, met la lo = .ok fd) :
    ∀ samples : List Sample,
      (∀ p ∈ samples, evalSpot wSol wTemp wWind darkMode p fd = some c) →
      ∀ k : ℕ,
        samples.foldl (scanStep wSol wTemp wWind darkMode met)
            (List.replicate k c, some c)
          = (List.replicate (k + samples.length) c, some c) := by
  intro samples
  induction samples with
  | nil => intro _ k; simp
  | cons p t ih =>
      intro hall k
      rw [List.foldl_cons]
      have hstep : scanStep wSol wTemp wWind darkMode met (List.replicate k c, some c) p
          = (List.replicate (k + 1) c, some c) := by
        unfold scanStep
        rw [hmet p.lat p.lon]
        dsimp only
        rw [hall p (List.mem_cons_self p t)]
        dsimp only
        rw [if_neg (lt_irrefl c.score),
          show [c] = List.replicate 1 c from rfl, List.append_replicate_replicate]
      rw [hstep, ih (fun q hq => hall q (List.mem_cons_of_mem p hq)) (k + 1)]
      rw [show k + 1 + t.length = k + (p :: t).length from by simp; omega]

lemma scanSamples_const (wSol wTemp wWind : ℚ) (darkMode : Bool)
    (met : MetProvider) (fd : ForecastData) (c : WeatherSpot)
    (hmet : ∀ la lo, met la lo = .ok fd)
    (samples : List Sample)
    (hall : ∀ p ∈ samples, evalSpot wSol wTemp wWind darkMode p fd = some c)
    (hne : samples ≠ []) :
    scanSamples wSol wTemp wWind darkMode met samples
      = (List.replicate samples.length c, some c) := by
  cases samples with
  | nil => exact absurd rfl hne
  | cons p t =>
      unfold scanSamples
      rw [List.foldl_cons]
      have hstep : scanStep wSol wTemp wWind darkMode met ([], none) p
          = (List.replicate 1 c, some c) := by
        unfold scanStep
        rw [hmet p.lat p.lon]
        dsimp only
        rw [hall p (List.mem_cons_self p t)]
        rfl
      rw [hstep,
        scanSamples_const_aux wSol wTemp wWind darkMode met fd c hmet t
          (fun q hq => hall q (List.mem_cons_of_mem p hq)) 1]
      rw [show 1 + t.length = (p :: t).length from by simp [Nat.add_comm]]

lemma sortSpots_replicate (n : ℕ) (c : WeatherSpot) :
    sortSpots (List.replicate n c) = List.replicate n c := by
  apply List.mergeSort_of_sorted
  rw [List.pairwise_replicate]
  right
  simp

lemma toFixed5_sixty : toFixed5 60 = "60.00000" := by
  have h : (⌊|(60 : ℚ)| * 100000 + 1 / 2⌋ : ℤ) = 6000000 := by
    rw [abs_of_nonneg (by norm_num : (0 : ℚ) ≤ 60)]
    norm_num [Int.floor_eq_iff]
  unfold toFixed5
  rw [if_neg (by norm_num : ¬ (60 : ℚ) < 0), h]
  decide

lemma toFixed5_ten : toFixed5 10 = "10.00000" := by
  have h : (⌊|(10 : ℚ)| * 100000 + 1 / 2⌋ : ℤ) = 1000000 := by
    rw [abs_of_nonneg (by norm_num : (0 : ℚ) ≤ 10)]
    norm_num [Int.floor_eq_iff]
  unfold toFixed5
  rw [if_neg (by norm_num : ¬ (10 : ℚ) < 0), h]
  decide

/-- The fully evaluated outcome of one all-constant search: every grid sample
collapses on the center `(60, 10)`, each of the 81 forecasts is the same
one-entry series, every reverse geocode fails, so the pool is 81 identical
spots, the best name falls back to the coordinate label and the top-3 names
to the `Spot {rank}` labels. -/
lemma processLocation_const_eval :
    (processLocation 1 0 0 false 10 60 10 (fun _ => 0) (fun _ => 0) 0
        (fun _ _ => .ok ⟨[some ⟨50, 20, 5⟩], ""⟩)
        (fun _ _ => .error .lookupError)).result
      = .ok { best := { spot := ⟨60, 10, 20, 50, 5, none, "", 1/2⟩,
                        name := some "60.00000,10.00000",
                        forecast := [some ⟨50, 20, 5⟩] },
              topK := [⟨⟨60, 10, 20, 50, 5, none, "", 1/2⟩, "Spot 1", 1⟩,
                       ⟨⟨60, 10, 20, 50, 5, none, "", 1/2⟩, "Spot 2", 2⟩,
                       ⟨⟨60, 10, 20, 50, 5, none, "", 1/2⟩, "Spot 3", 3⟩] } := by
  have hscan : scanSamples (1 / (1 + 0 + 0)) (0 / (1 + 0 + 0)) (0 / (1 + 0 + 0)) false
      (fun _ _ => .ok ⟨[some ⟨50, 20, 5⟩], ""⟩)
      (gridSamples (fun _ => 0) (fun _ => 0) 0 60 10 10)
      = (List.replicate 81 (⟨60, 10, 20, 50, 5, none, "", 1/2⟩ : WeatherSpot),
         some ⟨60, 10, 20, 50, 5, none, "", 1/2⟩) := by
    rw [scanSamples_const _ _ _ _ _ ⟨[some ⟨50, 20, 5⟩], ""⟩
        (⟨60, 10, 20, 50, 5, none, "", 1/2⟩ : WeatherSpot) (fun _ _ => rfl)
        (gridSamples (fun _ => 0) (fun _ => 0) 0 60 10 10)
        (fun p hp => evalSpot_fd0 p (gridSamples_zero_trig 60 10 10 p hp).1
          (gridSamples_zero_trig 60 10 10 p hp).2)
        (by
          intro hcon
          have := gridSamples_length (fun _ => 0) (fun _ => 0) 0 60 10 10
          rw [hcon] at this
          simp at this),
      gridSamples_length]
  rw [processLocation_eq _ _ _ _ _ _ _ _ _ _ _ _ (by norm_num), hscan]
  dsimp only
  rw [sortSpots_replicate, show (List.replicate 81
      (⟨60, 10, 20, 50, 5, none, "", 1/2⟩ : WeatherSpot)).take 3
    = List.replicate 3 ⟨60, 10, 20, 50, 5, none, "", 1/2⟩ from by
      rw [List.take_replicate]
      norm_num]
  unfold bestPlaceName
  dsimp only
  rw [show coordLabel (60 : ℚ) 10 = "60.00000,10.00000" from by
    unfold coordLabel
    rw [toFixed5_sixty, toFixed5_ten]
    rfl]
  rfl

/-- C7 witness: the all-constant 81-point run; every candidate scores `1/2`,
the best is the first one found and the top-3 are three copies of it. -/
theorem ranking_best_and_topk_witness :
    ∃ pool : List WeatherSpot,
      pool = (scanSamples (1 / (1 + 0 + 0)) (0 / (1 + 0 + 0)) (0 / (1 + 0 + 0)) false
          (fun _ _ => .ok ⟨[some ⟨50, 20, 5⟩], ""⟩)
          (gridSamples (fun _ => 0) (fun _ => 0) 0 60 10 10)).1
      ∧ (∃ pre post,
          pool = pre ++ (⟨60, 10, 20, 50, 5, none, "", 1/2⟩ : WeatherSpot) :: post
          ∧ (∀ s ∈ pre, s.score < (⟨60, 10, 20, 50, 5, none, "", 1/2⟩ : WeatherSpot).score)
          ∧ ∀ s ∈ pool, s.score ≤ (⟨60, 10, 20, 50, 5, none, "", 1/2⟩ : WeatherSpot).score)
      ∧ ∃ sorted : List WeatherSpot, pool.Perm sorted
          ∧ sorted.Pairwise (fun a b => b.score ≤ a.score)
          ∧ [(⟨60, 10, 20, 50, 5, none, "", 1/2⟩ : WeatherSpot),
             ⟨60, 10, 20, 50, 5, none, "", 1/2⟩,
             ⟨60, 10, 20, 50, 5, none, "", 1/2⟩] = sorted.take 3 :=
  ranking_best_and_topk 1 0 0 false 10 60 10 (fun _ => 0) (fun _ => 0) 0
    (fun _ _ => .ok ⟨[some ⟨50, 20, 5⟩], ""⟩) (fun _ _ => .error .lookupError)
    { best := { spot := ⟨60, 10, 20, 50, 5, none, "", 1/2⟩,
                name := some "60.00000,10.00000",
                forecast := [some ⟨50, 20, 5⟩] },
      topK := [⟨⟨60, 10, 20, 50, 5, none, "", 1/2⟩, "Spot 1", 1⟩,
               ⟨⟨60, 10, 20, 50, 5, none, "", 1/2⟩, "Spot 2", 2⟩,
               ⟨⟨60, 10, 20, 50, 5, none, "", 1/2⟩, "Spot 3", 3⟩] }
    processLocation_const_eval

/-- C9 witness: the same all-constant run with every reverse geocode failing;
the search still returns a result, the best name is the coordinate label and
the top-K names are the `Spot {rank}` labels. -/
theorem geocode_failure_tolerated_witness :
    ∃ rr2 : SearchResult,
      (processLocation 1 0 0 false 10 60 10 (fun _ => 0) (fun _ => 0) 0
          (fun _ _ => .ok ⟨[some ⟨50, 20, 5⟩], ""⟩)
          (fun _ _ => .error .lookupError)).result = .ok rr2
      ∧ rr2.best.spot = (⟨60, 10, 20, 50, 5, none, "", 1/2⟩ : WeatherSpot)
      ∧ (∀ e : LookupError,
          (Except.error LookupError.lookupError : Except LookupError (Option String))
              = .error e →
          rr2.best.name = some (coordLabel
            (⟨60, 10, 20, 50, 5, none, "", 1/2⟩ : WeatherSpot).lat
            (⟨60, 10, 20, 50, 5, none, "", 1/2⟩ : WeatherSpot).lon))
      ∧ rr2.topK.length = 3
      ∧ ∀ (i : ℕ) (hi2 : i < rr2.topK.length) (e : LookupError),
          (Except.error LookupError.lookupError : Except LookupError (Option String))
              = .error e →
          (rr2.topK.get ⟨i, hi2⟩).name = spotLabel (i + 1) :=
  geocode_failure_tolerated 1 0 0 false 10 60 10 (fun _ => 0) (fun _ => 0) 0
    (fun _ _ => .ok ⟨[some ⟨50, 20, 5⟩], ""⟩)
    (fun _ _ => .error .lookupError) (fun _ _ => .error .lookupError)
    { best := { spot := ⟨60, 10, 20, 50, 5, none, "", 1/2⟩,
                name := some "60.00000,10.00000",
                forecast := [some ⟨50, 20, 5⟩] },
      topK := [⟨⟨60, 10, 20, 50, 5, none, "", 1/2⟩, "Spot 1", 1⟩,
               ⟨⟨60, 10, 20, 50, 5, none, "", 1/2⟩, "Spot 2", 2⟩,
               ⟨⟨60, 10, 20, 50, 5, none, "", 1/2⟩, "Spot 3", 3⟩] }
    processLocation_const_eval

end Solsoker
